import Mathlib

/-!
Shallow embedding of the PyBaMM DFN model-construction slice:
* `src/pybamm/models/full_battery_models/lithium_ion/dfn.py`
* `src/pybamm/input/parameters/lithium-ion/electrolytes/lipf6_Landesfeind2019/...`

The `DFN` class builds an ordered submodel registry (a Python dict keyed by
role name) by calling a fixed sequence of setter methods from `__init__`.
Setters defined in `dfn.py` itself are translated directly; setters inherited
from `BaseModel` (which is outside this slice) are modelled from the spec and
marked as such in their doc comments.
-/

/-- The shared parameter set `self.param`.  Its content is never inspected by
the construction logic in `dfn.py`; every submodel constructor simply receives
the same shared object, which we represent by this token type. -/
structure Param where
deriving DecidableEq, Repr

/-- The reactions map: an auxiliary lookup from interfacial domain to a
reaction descriptor, shared read-only by several submodels. -/
structure Reactions where
  entries : List (String × String)
deriving DecidableEq, Repr

/-- Modelled from the spec: `BaseModel.set_reactions` (not in this slice)
computes the reactions map, a lookup of interfacial reaction descriptors keyed
by domain; the interface submodels in `dfn.py` use the "lithium-ion main"
reaction on each electrode domain. -/
def reactionsMap : Reactions :=
  ⟨[("Negative", "lithium-ion main"), ("Positive", "lithium-ion main")]⟩

/-- One submodel instance, mirroring the constructor calls appearing in
`dfn.py` (and, for the `BaseModel` setters, the aspects the spec names).
Each constructor records the arguments the Python code passes. -/
inductive Submodel where
  | externalCircuit (param : Param)
  | porosity_Constant (param : Param)
  | tortuosity (param : Param)
  | convection_NoConvection (param : Param)
  | interface_ButlerVolmer (param : Param) (domain : String) (reaction : String)
  | particle_FickianManyParticles (param : Param) (domain : String)
  | particle_FastManyParticles (param : Param) (domain : String)
  | electrode_ohm_Full (param : Param) (domain : String) (reactions : Reactions)
  | electrode_ohm_SurfaceForm (param : Param) (domain : String)
  | electrolyte_diffusion_Full (param : Param) (reactions : Reactions)
  | electrolyte_conductivity_Full (param : Param) (reactions : Reactions)
  | surface_form_FullDifferential (param : Param) (domain : String) (reactions : Reactions)
  | surface_form_FullAlgebraic (param : Param) (domain : String) (reactions : Reactions)
  | thermal (param : Param)
  | currentCollector (param : Param)
deriving DecidableEq, Repr

/-- The options mapping consumed by `DFN`.  The Python value for
"surface form" is either the literal `False` or a string; we model it as
`Option String` with `none` standing for Python `False`.  "dimensionality" is
a Python int and "particle"/"convection" are strings. -/
structure Options where
  particle : String
  surfaceForm : Option String
  dimensionality : Int
  convection : String
deriving DecidableEq, Repr

/-- Modelled from the spec: the `BaseModel` options validator (not in this
slice) accepts only a closed set of variants per key; the variants consumed by
`dfn.py` are particle ∈ {"Fickian diffusion", "fast diffusion"},
surface form ∈ {False, "differential", "algebraic"} and
dimensionality ∈ {0, 1, 2}. -/
def Options.accepted (o : Options) : Prop :=
  (o.particle = "Fickian diffusion" ∨ o.particle = "fast diffusion") ∧
  (o.surfaceForm = none ∨ o.surfaceForm = some "differential" ∨
    o.surfaceForm = some "algebraic") ∧
  (o.dimensionality = 0 ∨ o.dimensionality = 1 ∨ o.dimensionality = 2)

instance (o : Options) : Decidable o.accepted := by
  unfold Options.accepted; infer_instance

/-- Observable construction events, in program order: a registry write
(`self.submodels[key] = ...`) or the computation of the reactions map. -/
inductive Event where
  | registered (key : String)
  | reactionsComputed
deriving DecidableEq, Repr

/-- The state accumulated by `DFN.__init__`: the options, the shared parameter
set, the (initially absent) reactions map, the ordered submodel registry, the
build flag, and the symbolic workspace maps of the composed model.  The
workspace maps are part of the spec's Composed Model; their population by
`build_model` is outside this slice. -/
structure ModelState where
  param : Param
  options : Options
  reactions : Option Reactions
  submodels : List (String × Submodel)
  trace : List Event
  built : Bool
  rhs : List (String × String)
  algebraic : List (String × String)
  model_variables : List (String × String)
  boundary_conditions : List (String × String)
  initial_conditions : List (String × String)
deriving DecidableEq, Repr

/-- Python-dict write semantics for the registry: overwrite in place if the
key exists, else append (insertion order preserved). -/
def setKey : List (String × Submodel) → String → Submodel →
    List (String × Submodel)
  | [], k, v => [(k, v)]
  | (k', v') :: rest, k, v =>
      if k' = k then (k, v) :: rest else (k', v') :: setKey rest k v

/-- Python-dict read semantics for the registry: the value at a key, if
present. -/
def getKey : List (String × Submodel) → String → Option Submodel
  | [], _ => none
  | (k', v') :: rest, k => if k' = k then some v' else getKey rest k

/-- The number of registry entries carrying a given key. -/
def countKey : List (String × Submodel) → String → Nat
  | [], _ => 0
  | (k', _) :: rest, k => (if k' = k then 1 else 0) + countKey rest k

/-- `self.submodels[key] = sub`: a registry write, recorded in the trace. -/
def ModelState.register (st : ModelState) (key : String) (sub : Submodel) :
    ModelState :=
  { st with submodels := setKey st.submodels key sub
            trace := st.trace ++ [Event.registered key] }

/-- Modelled from the spec: `BaseModel.__init__(options, name)` (not in this
slice) validates the options and stores them together with the shared
parameter set; the registry and workspace start empty and the model starts
unbuilt. -/
def initState (options : Options) : ModelState :=
  { param := ⟨⟩
    options := options
    reactions := none
    submodels := []
    trace := []
    built := false
    rhs := []
    algebraic := []
    model_variables := []
    boundary_conditions := []
    initial_conditions := [] }

/-- Modelled from the spec: `BaseModel.set_external_circuit_submodel` (not in
this slice) registers the external-circuit submodel, the first entry of the
spec's canonical registry order. -/
def set_external_circuit_submodel (st : ModelState) : ModelState :=
  st.register "external circuit" (.externalCircuit st.param)

/-- Modelled from the spec: `BaseModel.set_reactions` (not in this slice)
computes the reactions map and stores it on the model; this is the
"reactions computed" event of the construction trace. -/
def set_reactions (st : ModelState) : ModelState :=
  { st with reactions := some reactionsMap
            trace := st.trace ++ [Event.reactionsComputed] }

/-- `DFN.set_porosity_submodel` (dfn.py): registers the constant porosity
submodel. -/
def set_porosity_submodel (st : ModelState) : ModelState :=
  st.register "porosity" (.porosity_Constant st.param)

/-- Modelled from the spec: `BaseModel.set_tortuosity_submodels` (not in this
slice) registers the tortuosity submodel, the third entry of the spec's
canonical registry order. -/
def set_tortuosity_submodels (st : ModelState) : ModelState :=
  st.register "tortuosity" (.tortuosity st.param)

/-- `DFN.set_convection_submodel` (dfn.py): registers the no-convection
submodel unconditionally. -/
def set_convection_submodel (st : ModelState) : ModelState :=
  st.register "convection" (.convection_NoConvection st.param)

/-- `DFN.set_interfacial_submodel` (dfn.py): registers Butler-Volmer kinetics
for both electrode domains, with the "lithium-ion main" reaction. -/
def set_interfacial_submodel (st : ModelState) : ModelState :=
  (st.register "negative interface"
      (.interface_ButlerVolmer st.param "Negative" "lithium-ion main")).register
    "positive interface"
    (.interface_ButlerVolmer st.param "Positive" "lithium-ion main")

/-- `DFN.set_particle_submodel` (dfn.py): dispatches on the "particle" option.
The Python `if`/`elif` has no `else`, so any other value falls through and
registers nothing. -/
def set_particle_submodel (st : ModelState) : ModelState :=
  if st.options.particle = "Fickian diffusion" then
    (st.register "negative particle"
        (.particle_FickianManyParticles st.param "Negative")).register
      "positive particle" (.particle_FickianManyParticles st.param "Positive")
  else if st.options.particle = "fast diffusion" then
    (st.register "negative particle"
        (.particle_FastManyParticles st.param "Negative")).register
      "positive particle" (.particle_FastManyParticles st.param "Positive")
  else st

/-- `DFN.set_solid_submodel` (dfn.py): full Ohm's law (consuming the reactions
map) when "surface form" is `False`, surface-form electrodes otherwise.  In
CPython a missing `self.reactions` attribute would raise; `DFN.__init__`
always computes it first, so the `none` branch is unreachable from `DFN.init`.
-/
def set_solid_submodel (st : ModelState) : ModelState :=
  match st.reactions with
  | none => st
  | some r =>
    if st.options.surfaceForm = none then
      (st.register "negative electrode"
          (.electrode_ohm_Full st.param "Negative" r)).register
        "positive electrode" (.electrode_ohm_Full st.param "Positive" r)
    else
      (st.register "negative electrode"
          (.electrode_ohm_SurfaceForm st.param "Negative")).register
        "positive electrode" (.electrode_ohm_SurfaceForm st.param "Positive")

/-- Python `str.lower()`, character-wise, as used on the ASCII domain names
`"Negative"`, `"Separator"`, `"Positive"`. -/
def pyLower (s : String) : String := ⟨s.data.map Char.toLower⟩

/-- `DFN.set_electrolyte_submodel` (dfn.py): always registers the full
Stefan-Maxwell electrolyte diffusion submodel, then dispatches conductivity on
"surface form": `False` gives one combined entry, "differential"/"algebraic"
give one surface-potential-form entry per domain (key
`domain.lower() + " electrolyte conductivity"`), any other value registers no
conductivity entry (no `else` in the Python chain). -/
def set_electrolyte_submodel (st : ModelState) : ModelState :=
  match st.reactions with
  | none => st
  | some r =>
    let st := st.register "electrolyte diffusion"
      (.electrolyte_diffusion_Full st.param r)
    if st.options.surfaceForm = none then
      st.register "electrolyte conductivity"
        (.electrolyte_conductivity_Full st.param r)
    else if st.options.surfaceForm = some "differential" then
      (["Negative", "Separator", "Positive"]).foldl
        (fun s domain =>
          s.register (pyLower domain ++ " electrolyte conductivity")
            (.surface_form_FullDifferential s.param domain r)) st
    else if st.options.surfaceForm = some "algebraic" then
      (["Negative", "Separator", "Positive"]).foldl
        (fun s domain =>
          s.register (pyLower domain ++ " electrolyte conductivity")
            (.surface_form_FullAlgebraic s.param domain r)) st
    else st

/-- Modelled from the spec: `BaseModel.set_thermal_submodel` (not in this
slice) registers the thermal submodel, the ninth entry of the spec's canonical
registry order. -/
def set_thermal_submodel (st : ModelState) : ModelState :=
  st.register "thermal" (.thermal st.param)

/-- Modelled from the spec: `BaseModel.set_current_collector_submodel` (not in
this slice) registers the current-collector submodel, the last entry of the
spec's canonical registry order. -/
def set_current_collector_submodel (st : ModelState) : ModelState :=
  st.register "current collector" (.currentCollector st.param)

/-- Modelled from the spec: `BaseModel.build_model` (not in this slice) merges
the submodel contributions into the workspace and freezes the result; after it
returns, the model is built and no further mutation is permitted.  Only the
freeze flag is relevant to this slice. -/
def build_model (st : ModelState) : ModelState :=
  { st with built := true }

/-- `DFN.__init__` (dfn.py): the fixed call sequence of setters, followed by
`build_model` when `build` is true. -/
def DFN.init (options : Options) (build : Bool) : ModelState :=
  let st := initState options
  let st := set_external_circuit_submodel st
  let st := set_reactions st
  let st := set_porosity_submodel st
  let st := set_tortuosity_submodels st
  let st := set_convection_submodel st
  let st := set_interfacial_submodel st
  let st := set_particle_submodel st
  let st := set_solid_submodel st
  let st := set_electrolyte_submodel st
  let st := set_thermal_submodel st
  let st := set_current_collector_submodel st
  if build then build_model st else st

/-- The first six registry entries: the aspects registered by
`set_external_circuit_submodel` through `set_interfacial_submodel`. -/
def registryHead : List (String × Submodel) :=
  [("external circuit", .externalCircuit ⟨⟩),
   ("porosity", .porosity_Constant ⟨⟩),
   ("tortuosity", .tortuosity ⟨⟩),
   ("convection", .convection_NoConvection ⟨⟩),
   ("negative interface", .interface_ButlerVolmer ⟨⟩ "Negative" "lithium-ion main"),
   ("positive interface", .interface_ButlerVolmer ⟨⟩ "Positive" "lithium-ion main")]

/-- The registry entries contributed by `set_particle_submodel`, as a function
of the "particle" option. -/
def particleEntries (p : String) : List (String × Submodel) :=
  if p = "Fickian diffusion" then
    [("negative particle", .particle_FickianManyParticles ⟨⟩ "Negative"),
     ("positive particle", .particle_FickianManyParticles ⟨⟩ "Positive")]
  else if p = "fast diffusion" then
    [("negative particle", .particle_FastManyParticles ⟨⟩ "Negative"),
     ("positive particle", .particle_FastManyParticles ⟨⟩ "Positive")]
  else []

/-- The registry entries contributed by `set_solid_submodel`, as a function of
the "surface form" option. -/
def solidEntries (s : Option String) : List (String × Submodel) :=
  if s = none then
    [("negative electrode", .electrode_ohm_Full ⟨⟩ "Negative" reactionsMap),
     ("positive electrode", .electrode_ohm_Full ⟨⟩ "Positive" reactionsMap)]
  else
    [("negative electrode", .electrode_ohm_SurfaceForm ⟨⟩ "Negative"),
     ("positive electrode", .electrode_ohm_SurfaceForm ⟨⟩ "Positive")]

/-- The conductivity entries contributed by `set_electrolyte_submodel`, as a
function of the "surface form" option. -/
def conductivityEntries (s : Option String) : List (String × Submodel) :=
  if s = none then
    [("electrolyte conductivity", .electrolyte_conductivity_Full ⟨⟩ reactionsMap)]
  else if s = some "differential" then
    [("negative electrolyte conductivity",
        .surface_form_FullDifferential ⟨⟩ "Negative" reactionsMap),
     ("separator electrolyte conductivity",
        .surface_form_FullDifferential ⟨⟩ "Separator" reactionsMap),
     ("positive electrolyte conductivity",
        .surface_form_FullDifferential ⟨⟩ "Positive" reactionsMap)]
  else if s = some "algebraic" then
    [("negative electrolyte conductivity",
        .surface_form_FullAlgebraic ⟨⟩ "Negative" reactionsMap),
     ("separator electrolyte conductivity",
        .surface_form_FullAlgebraic ⟨⟩ "Separator" reactionsMap),
     ("positive electrolyte conductivity",
        .surface_form_FullAlgebraic ⟨⟩ "Positive" reactionsMap)]
  else []

/-- The full registry produced by `DFN.init`, as a function of the two options
it actually reads ("particle" and "surface form"); proved equal to the
registry of `DFN.init` below. -/
def registryOf (p : String) (s : Option String) : List (String × Submodel) :=
  registryHead ++ particleEntries p ++ solidEntries s ++
    [("electrolyte diffusion", .electrolyte_diffusion_Full ⟨⟩ reactionsMap)] ++
    conductivityEntries s ++
    [("thermal", .thermal ⟨⟩), ("current collector", .currentCollector ⟨⟩)]

/-- The construction trace produced by `DFN.init`: the external-circuit
registration, then the reactions computation, then one registration event per
remaining registry entry in order. -/
def traceOf (p : String) (s : Option String) : List Event :=
  Event.registered "external circuit" :: Event.reactionsComputed ::
    ((registryOf p s).drop 1).map (fun e => Event.registered e.1)

/-- The geometry value `pybamm.Geometry(macro, micro)`. -/
structure Geometry where
  macroGeometry : String
  microGeometry : String
deriving DecidableEq, Repr

/-- `DFN.default_geometry` (dfn.py): an `if`/`elif` chain on the
"dimensionality" option; a value outside {0, 1, 2} falls off the end of the
Python function, returning `None`. -/
def DFN.default_geometry (o : Options) : Option Geometry :=
  if o.dimensionality = 0 then some ⟨"1D macro", "1+1D micro"⟩
  else if o.dimensionality = 1 then some ⟨"1+1D macro", "(1+1)+1D micro"⟩
  else if o.dimensionality = 2 then some ⟨"2+1D macro", "(2+1)+1D micro"⟩
  else none

/-- The geometry selection table stated by the spec, keyed by the
dimensionality value alone (spec-side definition, for comparison with
`DFN.default_geometry`). -/
def specGeometryOfDimensionality (d : Int) : Option Geometry :=
  if d = 0 then some ⟨"1D macro", "1+1D micro"⟩
  else if d = 1 then some ⟨"1+1D macro", "(1+1)+1D micro"⟩
  else if d = 2 then some ⟨"2+1D macro", "(2+1)+1D micro"⟩
  else none

/-- The canonical-order index of a registry key: the position of its aspect in
the spec's fixed order external-circuit (0), porosity (1), tortuosity (2),
convection (3), interfacial kinetics (4), particle (5), solid-phase transport
(6), electrolyte transport (7), thermal (8), current-collector (9); 10 for a
key outside the canonical aspects. -/
def aspectIndex (key : String) : Nat :=
  if key = "external circuit" then 0
  else if key = "porosity" then 1
  else if key = "tortuosity" then 2
  else if key = "convection" then 3
  else if key = "negative interface" ∨ key = "positive interface" then 4
  else if key = "negative particle" ∨ key = "positive particle" then 5
  else if key = "negative electrode" ∨ key = "positive electrode" then 6
  else if key = "electrolyte diffusion" ∨ key = "electrolyte conductivity" ∨
    key = "negative electrolyte conductivity" ∨
    key = "separator electrolyte conductivity" ∨
    key = "positive electrolyte conductivity" then 7
  else if key = "thermal" then 8
  else if key = "current collector" then 9
  else 10

/-- Whether a list of canonical-order indices is monotonically
nondecreasing. -/
def monotoneAspects : List Nat → Bool
  | [] => true
  | [_] => true
  | a :: b :: rest => Nat.ble a b && monotoneAspects (b :: rest)

/-- The registry keys that carry an electrolyte-conductivity submodel. -/
def conductivityKeyList : List String :=
  ["electrolyte conductivity", "negative electrolyte conductivity",
   "separator electrolyte conductivity", "positive electrolyte conductivity"]

/-- The sublist of registry entries keyed by an electrolyte-conductivity
role. -/
def conductivityEntriesOf : List (String × Submodel) → List (String × Submodel)
  | [] => []
  | e :: rest =>
      if e.1 ∈ conductivityKeyList then e :: conductivityEntriesOf rest
      else conductivityEntriesOf rest

/-- The prefix of a construction trace strictly before the reactions map is
computed. -/
def beforeReactions : List Event → List Event
  | [] => []
  | e :: rest =>
      if e = Event.reactionsComputed then [] else e :: beforeReactions rest

/-- The build-state error of the spec's error taxonomy. -/
inductive ModelError where
  | ImmutableModelError
deriving DecidableEq, Repr

/-- A mutation request against a model: replacing a registry entry, or writing
an entry of one of the workspace maps. -/
inductive MutationOp where
  | setSubmodel (key : String) (sub : Submodel)
  | setRhs (key : String) (expr : String)
  | setAlgebraic (key : String) (expr : String)
  | setVariable (key : String) (expr : String)
  | setBoundaryCondition (key : String) (expr : String)
  | setInitialCondition (key : String) (expr : String)
deriving DecidableEq, Repr

/-- The effect of a mutation on an unbuilt model. -/
def applyMutationRaw (st : ModelState) : MutationOp → ModelState
  | .setSubmodel k v => { st with submodels := setKey st.submodels k v }
  | .setRhs k e => { st with rhs := st.rhs ++ [(k, e)] }
  | .setAlgebraic k e => { st with algebraic := st.algebraic ++ [(k, e)] }
  | .setVariable k e =>
      { st with model_variables := st.model_variables ++ [(k, e)] }
  | .setBoundaryCondition k e =>
      { st with boundary_conditions := st.boundary_conditions ++ [(k, e)] }
  | .setInitialCondition k e =>
      { st with initial_conditions := st.initial_conditions ++ [(k, e)] }

/-- Modelled from the spec: the mutation entry points of the model (the
`BaseModel` guards themselves are not in this slice).  The spec's freeze
invariant: once the model is built, every mutation attempt fails with
`ImmutableModelError` and no field is touched; before the build, the mutation
is applied. -/
def applyMutation (st : ModelState) (op : MutationOp) :
    Except ModelError ModelState :=
  if st.built then Except.error ModelError.ImmutableModelError
  else Except.ok (applyMutationRaw st op)

/-- The fixed coefficient vector `coeffs` of
`electrolyte_conductivity_Landesfeind2019_EC_DMC_1_1.py`, i.e.
[7.98e-1, 2.28e2, -1.22, 5.09e-1, -4e-3, 3.79e-3], as exact rationals. -/
def conductivityCoeffs : List ℚ :=
  [798/1000, 228, -122/100, 509/1000, -4/1000, 379/100000]

/-- The fixed coefficient vector `coeffs` of
`electrolyte_diffusivity_Landesfeind2019_EC_DMC_1_1.py`, i.e.
[1.47e3, 1.33, -1.69e3, -5.63e2], as exact rationals. -/
def diffusivityCoeffs : List ℚ := [1470, 133/100, -1690, -563]

/-- `electrolyte_conductivity_Landesfeind2019_EC_DMC_1_1(c_e, T, T_inf, E_k_e,
R_g)`: returns `base.electrolyte_conductivity_Landesfeind2019_base(c_e, T,
coeffs)` with the fixed coefficient vector above.  The base correlation lives
in a sibling module outside this slice, so it enters the embedding as an
explicit function parameter; the function under study forwards only `c_e`,
`T` and its coefficient vector to it. -/
def electrolyte_conductivity_Landesfeind2019_EC_DMC_1_1
    (base : ℚ → ℚ → List ℚ → ℚ) (c_e T T_inf E_k_e R_g : ℚ) : ℚ :=
  base c_e T conductivityCoeffs

/-- `electrolyte_diffusivity_Landesfeind2019_EC_DMC_1_1(c_e, T, T_inf, E_k_e,
R_g)`: returns `base.electrolyte_diffusivity_Landesfeind2019_base(c_e, T,
coeffs)` with the fixed coefficient vector above; as for the conductivity, the
base correlation is an explicit function parameter. -/
def electrolyte_diffusivity_Landesfeind2019_EC_DMC_1_1
    (base : ℚ → ℚ → List ℚ → ℚ) (c_e T T_inf E_k_e R_g : ℚ) : ℚ :=
  base c_e T diffusivityCoeffs

/-- Python `"Negative".lower()` evaluates to `"negative"`. -/
theorem pyLower_Negative : pyLower "Negative" = "negative" := by decide

/-- Python `"Separator".lower()` evaluates to `"separator"`. -/
theorem pyLower_Separator : pyLower "Separator" = "separator" := by decide

/-- Python `"Positive".lower()` evaluates to `"positive"`. -/
theorem pyLower_Positive : pyLower "Positive" = "positive" := by decide

set_option maxHeartbeats 2000000 in
/-- Characterization of `DFN.init`: the constructed state is exactly the
options, the shared reactions map, the registry `registryOf`, the trace
`traceOf`, the requested build flag and empty workspace maps. -/
theorem DFN.init_eq (p : String) (s : Option String) (d : Int) (c : String)
    (b : Bool) :
    DFN.init ⟨p, s, d, c⟩ b =
      { param := ⟨⟩, options := ⟨p, s, d, c⟩, reactions := some reactionsMap,
        submodels := registryOf p s, trace := traceOf p s, built := b,
        rhs := [], algebraic := [], model_variables := [],
        boundary_conditions := [], initial_conditions := [] } := by
  by_cases hp1 : p = "Fickian diffusion" <;>
  by_cases hp2 : p = "fast diffusion" <;>
  by_cases hs1 : s = none <;> by_cases hs2 : s = some "differential" <;>
  by_cases hs3 : s = some "algebraic" <;> cases b <;>
  simp_all [DFN.init, initState, set_external_circuit_submodel, set_reactions,
    set_porosity_submodel, set_tortuosity_submodels, set_convection_submodel,
    set_interfacial_submodel, set_particle_submodel, set_solid_submodel,
    set_electrolyte_submodel, set_thermal_submodel,
    set_current_collector_submodel, build_model, ModelState.register, setKey,
    reactionsMap, registryOf, registryHead, particleEntries, solidEntries,
    conductivityEntries, traceOf, pyLower_Negative, pyLower_Separator,
    pyLower_Positive]

/-- The registry of a constructed DFN model is `registryOf` applied to the
"particle" and "surface form" options. -/
theorem DFN.init_submodels (p : String) (s : Option String) (d : Int)
    (c : String) (b : Bool) :
    (DFN.init ⟨p, s, d, c⟩ b).submodels = registryOf p s := by
  rw [DFN.init_eq]

/-- The construction trace of a DFN model is `traceOf` applied to the
"particle" and "surface form" options. -/
theorem DFN.init_trace (p : String) (s : Option String) (d : Int) (c : String)
    (b : Bool) :
    (DFN.init ⟨p, s, d, c⟩ b).trace = traceOf p s := by
  rw [DFN.init_eq]

/-- The build flag of a constructed DFN model equals the `build` argument. -/
theorem DFN.init_built (p : String) (s : Option String) (d : Int) (c : String)
    (b : Bool) :
    (DFN.init ⟨p, s, d, c⟩ b).built = b := by
  rw [DFN.init_eq]

/-- Claim C1: for every options value accepted by the constructor, the DFN
registry keys appear grouped in the spec's canonical aspect order
external-circuit, porosity, tortuosity, convection, interfacial kinetics,
particle, solid-phase transport, electrolyte transport, thermal,
current-collector: along the registry, the aspect indices are monotone, every
one of the ten aspects occurs, and no key falls outside them. -/
theorem dfn_registry_canonical_order (o : Options) (h : o.accepted) :
    monotoneAspects
      ((DFN.init o true).submodels.map (fun e => aspectIndex e.1)) = true ∧
    (∀ i ∈ List.range 10,
      i ∈ (DFN.init o true).submodels.map (fun e => aspectIndex e.1)) ∧
    (∀ j ∈ (DFN.init o true).submodels.map (fun e => aspectIndex e.1),
      j ≤ 9) := by
  obtain ⟨p, s, d, c⟩ := o
  obtain ⟨hp | hp, hs | hs | hs, -⟩ := h <;> subst hp <;> subst hs <;>
    rw [DFN.init_submodels] <;> decide

/-- Witness for C1 at the default options of the DFN model. -/
theorem dfn_registry_canonical_order_witness :
    Options.accepted ⟨"Fickian diffusion", none, 0, "none"⟩ ∧
    monotoneAspects
      ((DFN.init ⟨"Fickian diffusion", none, 0, "none"⟩ true).submodels.map
        (fun e => aspectIndex e.1)) = true :=
  ⟨by decide,
    (dfn_registry_canonical_order ⟨"Fickian diffusion", none, 0, "none"⟩
      (by decide)).1⟩

/-- Claim C2: with surface form = "differential", the registry holds exactly
the three per-domain electrolyte-conductivity entries (negative, separator,
positive), each the FullDifferential surface-potential-form submodel, and no
combined "electrolyte conductivity" entry. -/
theorem dfn_differential_conductivity (o : Options) (b : Bool)
    (h : o.surfaceForm = some "differential") :
    conductivityEntriesOf (DFN.init o b).submodels =
      [("negative electrolyte conductivity",
          .surface_form_FullDifferential ⟨⟩ "Negative" reactionsMap),
       ("separator electrolyte conductivity",
          .surface_form_FullDifferential ⟨⟩ "Separator" reactionsMap),
       ("positive electrolyte conductivity",
          .surface_form_FullDifferential ⟨⟩ "Positive" reactionsMap)] ∧
    getKey (DFN.init o b).submodels "electrolyte conductivity" = none := by
  obtain ⟨p, s, d, c⟩ := o
  subst h
  rw [DFN.init_submodels]
  by_cases hp1 : p = "Fickian diffusion" <;>
  by_cases hp2 : p = "fast diffusion" <;>
  simp_all [registryOf, registryHead, particleEntries, solidEntries,
    conductivityEntries, conductivityEntriesOf, conductivityKeyList, getKey,
    reactionsMap]

/-- Witness for C2 at Fickian-particle options with the differential surface
form. -/
theorem dfn_differential_conductivity_witness :
    getKey (DFN.init ⟨"Fickian diffusion", some "differential", 0, "none"⟩
        true).submodels "electrolyte conductivity" = none :=
  (dfn_differential_conductivity
    ⟨"Fickian diffusion", some "differential", 0, "none"⟩ true rfl).2

/-- Claim C3: for options {particle: "Fickian diffusion", surface form: False,
dimensionality: 0, convection: "none"}, the registry holds exactly one
negative-particle and one positive-particle entry (FickianManyParticles),
exactly one combined "electrolyte conductivity" entry with the
non-surface-form Full conductivity variant, and no per-domain split
conductivity entries. -/
theorem dfn_fickian_false_entries :
    countKey (DFN.init ⟨"Fickian diffusion", none, 0, "none"⟩ true).submodels
        "negative particle" = 1 ∧
    getKey (DFN.init ⟨"Fickian diffusion", none, 0, "none"⟩ true).submodels
        "negative particle" =
      some (.particle_FickianManyParticles ⟨⟩ "Negative") ∧
    countKey (DFN.init ⟨"Fickian diffusion", none, 0, "none"⟩ true).submodels
        "positive particle" = 1 ∧
    getKey (DFN.init ⟨"Fickian diffusion", none, 0, "none"⟩ true).submodels
        "positive particle" =
      some (.particle_FickianManyParticles ⟨⟩ "Positive") ∧
    conductivityEntriesOf
        (DFN.init ⟨"Fickian diffusion", none, 0, "none"⟩ true).submodels =
      [("electrolyte conductivity",
          .electrolyte_conductivity_Full ⟨⟩ reactionsMap)] := by
  decide

/-- Claim C4 counterexample: with the unknown particle variant
"quantum diffusion" reaching submodel selection, construction completes
normally: the model is built, later aspects such as the electrolyte
conductivity are registered, and the particle registry entries are silently
missing — no fatal error interrupts the build. -/
theorem dfn_unknown_particle_counterexample :
    countKey (DFN.init ⟨"quantum diffusion", none, 0, "none"⟩ true).submodels
        "negative particle" = 0 ∧
    countKey (DFN.init ⟨"quantum diffusion", none, 0, "none"⟩ true).submodels
        "positive particle" = 0 ∧
    getKey (DFN.init ⟨"quantum diffusion", none, 0, "none"⟩ true).submodels
        "electrolyte conductivity" =
      some (.electrolyte_conductivity_Full ⟨⟩ reactionsMap) ∧
    (DFN.init ⟨"quantum diffusion", none, 0, "none"⟩ true).built = true := by
  decide

/-- Claim C4 (amended): if an options value reaches submodel selection with a
particle variant unknown to the dispatch, `set_particle_submodel` falls
through its if/elif chain: no error is raised, construction continues to
completion, and the particle registry entries are simply missing. -/
theorem dfn_unknown_particle_skipped (o : Options) (b : Bool)
    (h1 : o.particle ≠ "Fickian diffusion")
    (h2 : o.particle ≠ "fast diffusion") :
    countKey (DFN.init o b).submodels "negative particle" = 0 ∧
    countKey (DFN.init o b).submodels "positive particle" = 0 ∧
    getKey (DFN.init o b).submodels "electrolyte diffusion" =
      some (.electrolyte_diffusion_Full ⟨⟩ reactionsMap) := by
  obtain ⟨p, s, d, c⟩ := o
  rw [DFN.init_submodels]
  by_cases hs1 : s = none <;> by_cases hs2 : s = some "differential" <;>
  by_cases hs3 : s = some "algebraic" <;>
  simp_all [registryOf, registryHead, particleEntries, solidEntries,
    conductivityEntries, countKey, getKey, reactionsMap]

/-- Witness for the amended C4 at an unrecognized particle variant. -/
theorem dfn_unknown_particle_skipped_witness :
    countKey (DFN.init ⟨"quantum diffusion", some "algebraic", 1, "full"⟩
        false).submodels "negative particle" = 0 :=
  (dfn_unknown_particle_skipped
    ⟨"quantum diffusion", some "algebraic", 1, "full"⟩ false (by decide)
    (by decide)).1

/-- Claim C5 (freeze invariant, spec-modelled guard): for every options value,
the model returned by construction with build=True is built, and every
subsequent mutation attempt — replacing a registry entry or writing any of the
equations, variables, boundary-condition or initial-condition maps — returns
`ImmutableModelError`; since the mutation entry point yields no model on
error, the built model's registry and workspace maps are left unchanged. -/
theorem dfn_built_immutable (o : Options) (op : MutationOp) :
    applyMutation (DFN.init o true) op =
      Except.error ModelError.ImmutableModelError := by
  obtain ⟨p, s, d, c⟩ := o
  simp [applyMutation, DFN.init_built]

/-- Claim C6 counterexample: at the default options, the construction trace
contains a submodel registration (the external-circuit submodel) strictly
before the reactions-map computation, refuting the claim that the reactions
map is computed before any submodel is instantiated and registered. -/
theorem dfn_register_before_reactions_counterexample :
    Event.registered "external circuit" ∈
      beforeReactions
        (DFN.init ⟨"Fickian diffusion", none, 0, "none"⟩ true).trace := by
  decide

/-- Claim C6 (amended): during every model construction, the reactions map is
computed before any submodel other than the external-circuit submodel is
registered: the only event preceding the reactions computation in the
construction trace is the external-circuit registration. -/
theorem dfn_reactions_before_all_but_external (o : Options) (b : Bool) :
    beforeReactions (DFN.init o b).trace =
      [Event.registered "external circuit"] := by
  obtain ⟨p, s, d, c⟩ := o
  rw [DFN.init_trace]
  simp [traceOf, beforeReactions]

/-- Claim C7: the default geometry is determined by the "dimensionality"
option alone, via the stated three-row table; no other option influences the
result. -/
theorem dfn_default_geometry_by_dimensionality (o o' : Options)
    (h : o.dimensionality = o'.dimensionality) :
    DFN.default_geometry o = specGeometryOfDimensionality o.dimensionality ∧
    DFN.default_geometry o = DFN.default_geometry o' := by
  refine ⟨rfl, ?_⟩
  unfold DFN.default_geometry
  rw [h]

/-- Witness for C7: two options values agreeing only on dimensionality get the
same geometry. -/
theorem dfn_default_geometry_by_dimensionality_witness :
    DFN.default_geometry ⟨"Fickian diffusion", none, 1, "none"⟩ =
      DFN.default_geometry ⟨"fast diffusion", some "algebraic", 1, "x"⟩ :=
  (dfn_default_geometry_by_dimensionality
    ⟨"Fickian diffusion", none, 1, "none"⟩
    ⟨"fast diffusion", some "algebraic", 1, "x"⟩ rfl).2

/-- Claim C8: the two Landesfeind property functions are pure and their output
depends only on `c_e` and `T`: for any base correlation and any two value
assignments of `T_inf`, `E_k_e` and `R_g`, the results at equal `c_e` and `T`
coincide. -/
theorem landesfeind_depends_only_on_c_e_T
    (condBase diffBase : ℚ → ℚ → List ℚ → ℚ) (c_e T a1 a2 a3 b1 b2 b3 : ℚ) :
    electrolyte_conductivity_Landesfeind2019_EC_DMC_1_1 condBase c_e T
        a1 a2 a3 =
      electrolyte_conductivity_Landesfeind2019_EC_DMC_1_1 condBase c_e T
        b1 b2 b3 ∧
    electrolyte_diffusivity_Landesfeind2019_EC_DMC_1_1 diffBase c_e T
        a1 a2 a3 =
      electrolyte_diffusivity_Landesfeind2019_EC_DMC_1_1 diffBase c_e T
        b1 b2 b3 :=
  ⟨rfl, rfl⟩

/-- Claim C9: for every options value, the "electrolyte diffusion" entry is
the full Stefan-Maxwell diffusion submodel built from the shared parameter set
and the reactions map, and the "negative interface"/"positive interface"
entries are Butler-Volmer kinetics for the Negative and Positive domains; none
of these selections depends on any option. -/
theorem dfn_fixed_entries (o : Options) (b : Bool) :
    getKey (DFN.init o b).submodels "electrolyte diffusion" =
      some (.electrolyte_diffusion_Full ⟨⟩ reactionsMap) ∧
    getKey (DFN.init o b).submodels "negative interface" =
      some (.interface_ButlerVolmer ⟨⟩ "Negative" "lithium-ion main") ∧
    getKey (DFN.init o b).submodels "positive interface" =
      some (.interface_ButlerVolmer ⟨⟩ "Positive" "lithium-ion main") := by
  obtain ⟨p, s, d, c⟩ := o
  rw [DFN.init_submodels]
  by_cases hp1 : p = "Fickian diffusion" <;>
  by_cases hp2 : p = "fast diffusion" <;>
  by_cases hs1 : s = none <;> by_cases hs2 : s = some "differential" <;>
  by_cases hs3 : s = some "algebraic" <;>
  simp_all [registryOf, registryHead, particleEntries, solidEntries,
    conductivityEntries, getKey, reactionsMap]

/-- Claim C10: for a dimensionality value outside {0, 1, 2},
`default_geometry` falls off the end of its if/elif chain and returns no
geometry, rather than raising an error or returning one of the tables. -/
theorem dfn_default_geometry_unknown_dimensionality (o : Options)
    (h0 : o.dimensionality ≠ 0) (h1 : o.dimensionality ≠ 1)
    (h2 : o.dimensionality ≠ 2) :
    DFN.default_geometry o = none := by
  simp [DFN.default_geometry, h0, h1, h2]

/-- Witness for C10 at dimensionality 3. -/
theorem dfn_default_geometry_unknown_dimensionality_witness :
    DFN.default_geometry ⟨"Fickian diffusion", none, 3, "none"⟩ = none :=
  dfn_default_geometry_unknown_dimensionality
    ⟨"Fickian diffusion", none, 3, "none"⟩ (by decide) (by decide) (by decide)
